import Mathlib

/-!
# Verification of the limit-practice application core

Shallow embedding of the core logic of `src/app.py`: the problem
generator, the base64 share-token codec, the answer verifier, the
plot-data builder and the session progress tracker, together with
theorems settling the specification claims about them.

Modelling conventions:
* Python integers are `ℤ`/`ℕ`; exact rational values are `ℚ`.
* Python float arithmetic is modelled exactly where a claim depends on
  it (the hole-point value is the IEEE-754 double nearest `1/a`,
  computed as an exact rational), and by exact rational arithmetic
  where the quantities involved are many orders of magnitude away from
  any rounding threshold (the `1e-4` tolerance check, the plot filter).
* Fallible Python code (functions whose failures are caught) becomes
  `Option`-valued functions; a `try/except` returning a default is a
  total function returning that default on the failing branch.
-/

/- Batteries marks the `Rat` field operations `@[irreducible]`, which blocks
elaborator-side evaluation of concrete rational arithmetic in `decide` / `rfl`
proofs (the kernel itself reduces them fine).  Restore the default
reducibility so concrete instances of the definitions below evaluate. -/
set_option allowUnsafeReducibility true
attribute [semireducible] Rat.mul Rat.inv Rat.add Rat.sub Rat.ofScientific

/-- A generated problem `{a, b, c}` (`src/app.py`, `generate_problem` /
`load_problem_from_url`): `c = a² + 2`, `b = c − 1`, all derived from `a`. -/
structure Problem where
  a : ℤ
  b : ℤ
  c : ℤ
deriving Repr, DecidableEq

/-- `generate_problem` from `src/app.py` lines 128–140, with the one random
draw `a = random.randint(2, 12)` made an explicit argument:
`c = a**2 + 2`, `b = c - 1`. -/
def generate_problem (a : ℤ) : Problem :=
  { a := a, b := (a ^ 2 + 2) - 1, c := a ^ 2 + 2 }

/-- The problem reconstruction done inside `load_problem_from_url`
(`src/app.py` lines 148–150): `c = a**2 + 2; b = c - 1`. -/
def problem_from (a : ℤ) : Problem :=
  { a := a, b := (a ^ 2 + 2) - 1, c := a ^ 2 + 2 }

/-! ## Base64 share-token codec (`encode_problem` / `decode_problem`) -/

/-- The standard base64 alphabet used by Python's `base64.b64encode`. -/
def b64alphabet : List Char :=
  "ABCDEFGHIJKLMNOPQRSTUVWXYZabcdefghijklmnopqrstuvwxyz0123456789+/".toList

/-- The base64 character for a 6-bit value. -/
def b64char (n : ℕ) : Char := b64alphabet.getD n 'A'

/-- Index of a character in the base64 alphabet, `none` for characters
outside the alphabet (padding `'='` is handled separately). -/
def b64index (ch : Char) : Option ℕ :=
  if 'A' ≤ ch ∧ ch ≤ 'Z' then some (ch.toNat - 65)
  else if 'a' ≤ ch ∧ ch ≤ 'z' then some (ch.toNat - 97 + 26)
  else if '0' ≤ ch ∧ ch ≤ '9' then some (ch.toNat - 48 + 52)
  else if ch = '+' then some 62
  else if ch = '/' then some 63
  else none

/-- Base64-encode a byte list (bytes are `ℕ < 256`), as
`base64.b64encode` does: 3-byte groups become 4 characters, with `'='`
padding for a 1- or 2-byte tail. -/
def b64encodeBytes : List ℕ → List Char
  | [] => []
  | [b1] => [b64char (b1 / 4), b64char (b1 % 4 * 16), '=', '=']
  | [b1, b2] =>
      [b64char (b1 / 4), b64char (b1 % 4 * 16 + b2 / 16), b64char (b2 % 16 * 4), '=']
  | b1 :: b2 :: b3 :: rest =>
      b64char (b1 / 4) :: b64char (b1 % 4 * 16 + b2 / 16) ::
      b64char (b2 % 16 * 4 + b3 / 64) :: b64char (b3 % 64) :: b64encodeBytes rest

/-- Decode base64 characters in groups of four, allowing `'='` padding
only in a final group, as `base64.b64decode` does after discarding
foreign characters.  Fails (`none`) when the length is not a multiple
of four or a non-final group contains padding. -/
def b64decodeGroups : List Char → Option (List ℕ)
  | [] => some []
  | [c1, c2, '=', '='] => do
      let n1 ← b64index c1
      let n2 ← b64index c2
      pure [n1 * 4 + n2 / 16]
  | [c1, c2, c3, '='] => do
      let n1 ← b64index c1
      let n2 ← b64index c2
      let n3 ← b64index c3
      pure [n1 * 4 + n2 / 16, n2 % 16 * 16 + n3 / 4]
  | c1 :: c2 :: c3 :: c4 :: rest => do
      let n1 ← b64index c1
      let n2 ← b64index c2
      let n3 ← b64index c3
      let n4 ← b64index c4
      let tail ← b64decodeGroups rest
      pure ((n1 * 4 + n2 / 16) :: (n2 % 16 * 16 + n3 / 4) :: (n3 % 4 * 64 + n4) :: tail)
  | _ => none

/-- `base64.b64decode` in its default (non-strict) mode: characters
outside the alphabet that are not `'='` are discarded, then the
remainder is decoded in groups of four. -/
def b64decodeChars (cs : List Char) : Option (List ℕ) :=
  b64decodeGroups (cs.filter fun ch => (b64index ch).isSome || ch = '=')

/-- `bytes.decode()` restricted to the ASCII payloads this app produces:
all bytes must be `< 128`; otherwise the decode step fails. -/
def asciiChars (bs : List ℕ) : Option (List Char) :=
  if bs.all (· < 128) then some (bs.map Char.ofNat) else none

/-- `True` exactly for the characters `'0'`–`'9'`. -/
def isDigitChar (ch : Char) : Bool := '0' ≤ ch ∧ ch ≤ '9'

/-- Numeric value of a digit string, most significant digit first. -/
def digitsVal (ds : List Char) : ℕ :=
  ds.foldl (fun acc d => acc * 10 + (d.toNat - 48)) 0

/-- Python whitespace characters recognised by `str.strip()` / `int()`. -/
def isPyWS (ch : Char) : Bool :=
  ch = ' ' ∨ ch = '\t' ∨ ch = '\n' ∨ ch = '\r' ∨ ch.toNat = 11 ∨ ch.toNat = 12

/-- `str.strip()` on a character list. -/
def stripChars (cs : List Char) : List Char :=
  ((cs.dropWhile isPyWS).reverse.dropWhile isPyWS).reverse

/-- Python's `int(str)`: optional surrounding whitespace, optional sign,
then a nonempty run of digits; anything else raises (here: `none`). -/
def parsePyInt (cs : List Char) : Option ℤ :=
  match stripChars cs with
  | '-' :: ds => if ds ≠ [] ∧ ds.all isDigitChar then some (-(digitsVal ds : ℤ)) else none
  | '+' :: ds => if ds ≠ [] ∧ ds.all isDigitChar then some (digitsVal ds : ℤ) else none
  | ds => if ds ≠ [] ∧ ds.all isDigitChar then some (digitsVal ds : ℤ) else none

/-- Python's `str(n)` for an integer: decimal digits with a leading
`'-'` for negative numbers. -/
def pyStrInt (n : ℤ) : List Char :=
  if n < 0 then '-' :: Nat.toDigits 10 n.natAbs else Nat.toDigits 10 n.toNat

/-- `encode_problem` from `src/app.py` lines 117–119:
`base64.b64encode(str(a).encode()).decode()`. -/
def encode_problem (a : ℤ) : String :=
  ⟨b64encodeBytes ((pyStrInt a).map Char.toNat)⟩

/-- `decode_problem` from `src/app.py` lines 121–126:
`int(base64.b64decode(code.encode()).decode())`, with every failure
caught and turned into `None`. -/
def decode_problem (code : String) : Option ℤ :=
  (b64decodeChars code.toList).bind fun bs =>
    (asciiChars bs).bind fun cs => parsePyInt cs

/-! ## URL loading (`load_problem_from_url` and startup) -/

/-- `load_problem_from_url` from `src/app.py` lines 142–151.  The query
parameter (if any) is passed explicitly.  Note the source guards the
decoded value with Python truthiness (`if a:`), so a decoded `0` is
treated exactly like a decode failure. -/
def load_problem_from_url (params : Option String) : Option Problem :=
  match params with
  | none => none
  | some code =>
      match decode_problem code with
      | none => none
      | some a => if a ≠ 0 then some (problem_from a) else none

/-- The session-state initialisation at `src/app.py` lines 200–206: use
the URL problem and show the "Challenge Problem Loaded" toast when
`load_problem_from_url` returns one, otherwise the freshly generated
problem and no toast.  Returns `(problem, toast_shown)`. -/
def init_problem (params : Option String) (fresh : Problem) : Problem × Bool :=
  match load_problem_from_url params with
  | some p => (p, true)
  | none => (fresh, false)

/-! ## Answer verifier (`check_answer`) -/

/-- Parse a nonempty all-digit string, `none` otherwise. -/
def parseDigits (cs : List Char) : Option ℕ :=
  if cs ≠ [] ∧ cs.all isDigitChar then some (digitsVal cs) else none

/-- Parse an unsigned decimal literal: `digits`, `digits.digits`,
`.digits` or `digits.` (the grammar `sympify` accepts for numeric
literals), as an exact rational. -/
def parseUnsignedDec (cs : List Char) : Option ℚ :=
  match cs.splitOn '.' with
  | [ip] => (parseDigits ip).map fun n => (n : ℚ)
  | [ip, fp] =>
      if (ip ≠ [] ∨ fp ≠ []) ∧ ip.all isDigitChar ∧ fp.all isDigitChar then
        some ((digitsVal ip : ℚ) + (digitsVal fp : ℚ) / 10 ^ fp.length)
      else none
  | _ => none

/-- Parse an optionally signed decimal literal. -/
def parseSignedDec (cs : List Char) : Option ℚ :=
  match cs with
  | '-' :: rest => (parseUnsignedDec rest).map (fun q => -q)
  | '+' :: rest => parseUnsignedDec rest
  | _ => parseUnsignedDec cs

/-- Model of `sympy.sympify` restricted to the numeric fragment this app
compares against: an optionally signed decimal literal, or a quotient
`p/q` of two such literals (with nonzero denominator).  Inputs that
`sympify` parses to a non-numeric symbolic object (such as `abc`) are
mapped to `none`: in `check_answer` both a parse failure and a
non-numeric parse end in the `except` branch returning `False`, so the
two are observationally identical. -/
def sympifyQ (u : String) : Option ℚ :=
  let cs := stripChars u.toList
  match cs.splitOn '/' with
  | [w] => parseSignedDec w
  | [w1, w2] =>
      (parseSignedDec w1).bind fun n =>
        (parseSignedDec w2).bind fun d =>
          if d ≠ 0 then some (n / d) else none
  | _ => none

/-- `check_answer` from `src/app.py` lines 153–171: reject when the
stripped input is empty, parse, compare exactly against the rational
`1/correct_a`, and otherwise fall back to an absolute-difference
tolerance of `1e-4`.  The float fall-back is modelled by exact rational
arithmetic (see the header). -/
def check_answer (user_input : String) (correct_a : ℤ) : Bool :=
  if stripChars user_input.toList = [] then false
  else
    match sympifyQ user_input with
    | none => false
    | some v =>
        if v = 1 / (correct_a : ℚ) then true
        else |v - 1 / (correct_a : ℚ)| < 1 / 10000

/-! ## Plot data builder (`get_plot_data`) -/

/-- `np.linspace(-2, 0, 200)`: 200 evenly spaced points from −2 to 0
inclusive, as exact rationals (step `2/199`). -/
def linspace200 : List ℚ :=
  (List.range 200).map fun i : ℕ => -2 + 2 * (i : ℚ) / 199

/-- The x-column of `get_plot_data` (`src/app.py` lines 173–186): the
linspace filtered by `np.abs(x_vals + 1) > 0.05`. -/
def plot_xs : List ℚ :=
  linspace200.filter fun x => decide ((1 : ℚ) / 20 < |x + 1|)

/-- The radicand `1 / (x + c - 1)` whose square root is the y-column of
`get_plot_data`. -/
def radicand (c x : ℚ) : ℚ := 1 / (x + c - 1)

/-! ## The hole point (`actual_limit` / `point_data`) -/

/-- `⌊log₂ n⌋` with explicit fuel (structurally recursive, so that
concrete instances reduce; `natLog2F n n = Nat.log2 n` for `n ≥ 1`). -/
def natLog2F : ℕ → ℕ → ℕ
  | 0, _ => 0
  | fuel + 1, n => if 2 ≤ n then natLog2F fuel (n / 2) + 1 else 0

/-- Model of the Python float division `1 / a` for an integer `a ≥ 2`:
the IEEE-754 double nearest to `1/a`, as an exact rational.  With
`2^(k-1) < a ≤ 2^k`, the value `1/a` lies in `[2^(-k), 2^(-(k-1)))`
where doubles form the grid `m / 2^(52+k)`; the significand is
`round(2^g / a) = ⌊(2^(g+1) + a) / (2·a)⌋` (natural-number division;
a tie, which round-to-even would break downward, would need `a` to be
a power of two, and those divide `2^g` exactly). -/
def pyFloatInv (a : ℕ) : ℚ :=
  let k := natLog2F a (a - 1) + 1
  let g := 52 + k
  (((2 ^ (g + 1) + a) / (2 * a) : ℕ) : ℚ) / (2 ^ g : ℚ)

/-- `actual_limit = 1 / prob['a']` from `src/app.py` line 336 (Python
float division of two ints). -/
def actual_limit (a : ℕ) : ℚ := pyFloatInv a

/-- The hole point `point_data` from `src/app.py` line 347:
`{'x': [-1], 'f(x)': [actual_limit]}` — set directly, not sampled. -/
def point_data (a : ℕ) : ℚ × ℚ := (-1, actual_limit a)

/-! ## Session progress tracker -/

/-- The session counters and flags of `src/app.py` (section 4 and the
submission handler). -/
structure SessionState where
  streak : ℕ
  total_correct : ℕ
  attempts : ℕ
  problem_solved : Bool
  failed : Bool
  show_solution : Bool
deriving Repr, DecidableEq

/-- The initial tracking metrics (`src/app.py` lines 209–212). -/
def initState : SessionState :=
  { streak := 0, total_correct := 0, attempts := 0,
    problem_solved := false, failed := false, show_solution := false }

/-- `reset_problem` from `src/app.py` lines 188–197, restricted to the
tracked counters: a new problem resets `problem_solved`, `failed`,
`attempts` and `show_solution`; `streak` and `total_correct` persist. -/
def reset_problem (s : SessionState) : SessionState :=
  { s with problem_solved := false, failed := false,
           attempts := 0, show_solution := false }

/-- The submission handler of `src/app.py` lines 257–308, as a state
transition on the tracked counters given the verdict `is_correct`
returned by `check_answer`. -/
def submit (s : SessionState) (is_correct : Bool) : SessionState :=
  if is_correct then
    if s.failed then s
    else
      let s1 :=
        if ¬ s.problem_solved then
          { s with streak := s.streak + 1, total_correct := s.total_correct + 1,
                   problem_solved := true, failed := false }
        else s
      { s1 with show_solution := true }
  else
    if s.failed then s
    else if s.problem_solved then s
    else
      let s2 := { s with streak := 0, attempts := s.attempts + 1 }
      let attempts_left : ℤ := 3 - (s2.attempts : ℤ)
      if attempts_left > 0 then s2
      else { s2 with problem_solved := true, failed := true, show_solution := true }

/-- States reachable from startup through any sequence of submissions
and problem resets. -/
inductive Reachable : SessionState → Prop
  | init : Reachable initState
  | submit (s : SessionState) (v : Bool) : Reachable s → Reachable (submit s v)
  | reset (s : SessionState) : Reachable s → Reachable (reset_problem s)

/-! ## Theorems -/

/-- Claim C3: for every integer `a` in `[2, 12]`,
`decode_problem (encode_problem a) = some a` — the share-token codec
round-trips the problem parameter. -/
theorem codec_roundtrip (a : ℤ) (h2 : 2 ≤ a) (h12 : a ≤ 12) :
    decode_problem (encode_problem a) = some a := by
  interval_cases a <;> rfl

/-- Witness for `codec_roundtrip` at `a = 7`. -/
theorem codec_roundtrip_witness :
    (2 ≤ (7 : ℤ) ∧ (7 : ℤ) ≤ 12) ∧ decode_problem (encode_problem 7) = some 7 :=
  ⟨⟨by decide, by decide⟩, codec_roundtrip 7 (by decide) (by decide)⟩

/-- Claim C6: `decode_problem` is a total function into `Option ℤ` (the
modelled `try/except` never lets an exception escape), and each failure
mode of the pipeline — invalid base64, non-ASCII payload, non-integer
payload — propagates to the explicit no-value result `none`. -/
theorem decode_malformed_none (s : String) :
    (decode_problem s = none ∨ ∃ n : ℤ, decode_problem s = some n) ∧
    (b64decodeChars s.toList = none → decode_problem s = none) ∧
    (∀ bs, b64decodeChars s.toList = some bs → asciiChars bs = none →
      decode_problem s = none) ∧
    (∀ bs cs, b64decodeChars s.toList = some bs → asciiChars bs = some cs →
      parsePyInt cs = none → decode_problem s = none) := by
  refine ⟨?_, ?_, ?_, ?_⟩
  · cases h : decode_problem s with
    | none => exact Or.inl rfl
    | some n => exact Or.inr ⟨n, rfl⟩
  · intro h; unfold decode_problem; rw [h, Option.none_bind]
  · intro bs h1 h2
    unfold decode_problem; rw [h1, Option.some_bind, h2, Option.none_bind]
  · intro bs cs h1 h2 h3
    unfold decode_problem; rw [h1, Option.some_bind, h2, Option.some_bind, h3]

/-- Witness for `decode_malformed_none`: a syntactically valid token with
a non-integer payload (`"YWJj"` decodes to the bytes of `"abc"`) and a
token that is not valid base64 (`"A"`, whose length is not a multiple
of four) both yield `none`. -/
theorem decode_malformed_none_witness :
    decode_problem "YWJj" = none ∧ decode_problem "A" = none :=
  ⟨(decode_malformed_none "YWJj").2.2.2 [97, 98, 99] ['a', 'b', 'c'] rfl rfl rfl,
   (decode_malformed_none "A").2.1 rfl⟩

/-- Counterexample to claim C7 as stated: the token `"MA=="` decodes
successfully to the integer `0`, yet startup falls back to the fresh
problem and shows no notification, because the source guards the decoded
value with Python truthiness (`if a:`), under which `0` is false. -/
theorem url_load_zero_counterexample :
    decode_problem "MA==" = some 0 ∧
    init_problem (some "MA==") (generate_problem 5) = (generate_problem 5, false) := by
  exact ⟨rfl, rfl⟩

/-- Claim C7 (amended): absence of the query parameter, a failed decode,
or a decode yielding `0` all fall back to the fresh problem with no
notification; a decode yielding a nonzero integer `n` reconstructs the
problem from `n` and notifies the user. -/
theorem url_load_spec (params : Option String) (fresh : Problem) :
    (params = none → init_problem params fresh = (fresh, false)) ∧
    (∀ code, params = some code → decode_problem code = none →
      init_problem params fresh = (fresh, false)) ∧
    (∀ code, params = some code → decode_problem code = some 0 →
      init_problem params fresh = (fresh, false)) ∧
    (∀ code n, params = some code → decode_problem code = some n → n ≠ 0 →
      init_problem params fresh = (problem_from n, true)) := by
  refine ⟨?_, ?_, ?_, ?_⟩
  · intro h; simp [init_problem, load_problem_from_url, h]
  · intro code h hd; subst h; simp [init_problem, load_problem_from_url, hd]
  · intro code h hd; subst h; simp [init_problem, load_problem_from_url, hd]
  · intro code n h hd hn; subst h; simp [init_problem, load_problem_from_url, hd, hn]

/-- Witness for `url_load_spec`: the token `"Nw=="` (the encoding of 7)
is decoded and the problem for `a = 7` is loaded with the notification. -/
theorem url_load_spec_witness :
    decode_problem "Nw==" = some 7 ∧
    init_problem (some "Nw==") (generate_problem 5) = (problem_from 7, true) :=
  ⟨rfl, (url_load_spec (some "Nw==") (generate_problem 5)).2.2.2 "Nw==" 7 rfl rfl
    (by decide)⟩

/-- Claim C5: from a fresh problem state (`attempts = 0`, not solved,
not failed), three consecutive submissions judged incorrect by
`check_answer` leave `attempts = 3` and set `failed`, `problem_solved`
and `show_solution`. -/
theorem three_incorrect_exhausts (s : SessionState) (u1 u2 u3 : String) (a : ℤ)
    (h1 : check_answer u1 a = false) (h2 : check_answer u2 a = false)
    (h3 : check_answer u3 a = false) (ha : s.attempts = 0)
    (hp : s.problem_solved = false) (hf : s.failed = false) :
    (submit (submit (submit s (check_answer u1 a)) (check_answer u2 a))
        (check_answer u3 a)).attempts = 3 ∧
    (submit (submit (submit s (check_answer u1 a)) (check_answer u2 a))
        (check_answer u3 a)).failed = true ∧
    (submit (submit (submit s (check_answer u1 a)) (check_answer u2 a))
        (check_answer u3 a)).problem_solved = true ∧
    (submit (submit (submit s (check_answer u1 a)) (check_answer u2 a))
        (check_answer u3 a)).show_solution = true := by
  rw [h1, h2, h3]
  obtain ⟨st, tc, att, ps, fl, sh⟩ := s
  simp only [SessionState.mk.injEq] at *
  subst ha; subst hp; subst hf
  exact ⟨rfl, rfl, rfl, rfl⟩

/-- Witness for `three_incorrect_exhausts` starting at the initial state
with the unparseable answer `"abc"`. -/
theorem three_incorrect_exhausts_witness :
    (submit (submit (submit initState (check_answer "abc" 7)) (check_answer "abc" 7))
        (check_answer "abc" 7)).attempts = 3 ∧
    (submit (submit (submit initState (check_answer "abc" 7)) (check_answer "abc" 7))
        (check_answer "abc" 7)).failed = true ∧
    (submit (submit (submit initState (check_answer "abc" 7)) (check_answer "abc" 7))
        (check_answer "abc" 7)).problem_solved = true ∧
    (submit (submit (submit initState (check_answer "abc" 7)) (check_answer "abc" 7))
        (check_answer "abc" 7)).show_solution = true :=
  three_incorrect_exhausts initState "abc" "abc" "abc" 7 rfl rfl rfl rfl rfl rfl

/-- Claim C8: submitting a correct answer while `problem_solved` is
already set (and `failed` is not) changes neither `streak` nor
`total_correct` — credit is granted at most once. -/
theorem resubmit_correct_noop (s : SessionState) (hp : s.problem_solved = true)
    (hf : s.failed = false) :
    (submit s true).streak = s.streak ∧
    (submit s true).total_correct = s.total_correct := by
  obtain ⟨st, tc, att, ps, fl, sh⟩ := s
  simp only at hp hf
  subst hp; subst hf
  exact ⟨rfl, rfl⟩

/-- Witness for `resubmit_correct_noop`: solve the initial problem, then
submit the correct answer again. -/
theorem resubmit_correct_noop_witness :
    (submit initState true).problem_solved = true ∧
    (submit initState true).failed = false ∧
    (submit (submit initState true) true).streak = (submit initState true).streak ∧
    (submit (submit initState true) true).total_correct =
      (submit initState true).total_correct :=
  ⟨rfl, rfl, (resubmit_correct_noop (submit initState true) rfl rfl).1,
   (resubmit_correct_noop (submit initState true) rfl rfl).2⟩

/-- Claim C10: in every reachable session state, `failed = true` implies
`problem_solved = true`: a problem is never marked failed without also
being marked resolved. -/
theorem failed_implies_solved (s : SessionState) (hr : Reachable s) :
    s.failed = true → s.problem_solved = true := by
  induction hr with
  | init => intro h; exact absurd h (by simp [initState])
  | submit s v hr ih =>
      cases v with
      | true =>
          by_cases hf : s.failed = true
          · have hs : submit s true = s := by simp [submit, hf]
            rw [hs]; exact ih
          · by_cases hp : s.problem_solved = true
            · have hfl : (submit s true).failed = false := by simp [submit, hf, hp]
              intro h; rw [hfl] at h; exact absurd h (by simp)
            · have hps : (submit s true).problem_solved = true := by
                simp [submit, hf, hp]
              intro _; exact hps
      | false =>
          by_cases hf : s.failed = true
          · have hs : submit s false = s := by simp [submit, hf]
            rw [hs]; exact ih
          · by_cases hp : s.problem_solved = true
            · have hs : submit s false = s := by simp [submit, hf, hp]
              rw [hs]; exact ih
            · by_cases hA : ((s.attempts : ℤ) + 1 < 3)
              · have hfl : (submit s false).failed = s.failed := by
                  simp [submit, hf, hp, hA]
                intro h; rw [hfl] at h; exact absurd h hf
              · have hps : (submit s false).problem_solved = true := by
                  simp [submit, hf, hp, hA]
                intro _; exact hps
  | reset s hr ih => simp [reset_problem]

/-- Witness for `failed_implies_solved` at the reachable state produced
by three incorrect submissions from startup. -/
theorem failed_implies_solved_witness :
    (submit (submit (submit initState false) false) false).failed = true ∧
    (submit (submit (submit initState false) false) false).problem_solved = true :=
  ⟨rfl, failed_implies_solved _
    (Reachable.submit _ false (Reachable.submit _ false
      (Reachable.submit _ false Reachable.init))) rfl⟩

/-- Claim C2: `check_answer` rejects empty (after stripping) and
unparseable input; for parsed input it accepts exactly when the value is
the rational `1/a` (the symbolic test) or within the `1e-4` tolerance of
it; and on the concrete spec examples with `a = 7` it returns
true/true/false/false/false. -/
theorem check_answer_policy (u : String) (a : ℤ) :
    (stripChars u.toList = [] → check_answer u a = false) ∧
    (sympifyQ u = none → check_answer u a = false) ∧
    (∀ v : ℚ, sympifyQ u = some v → stripChars u.toList ≠ [] →
      (check_answer u a = true ↔ v = 1 / (a : ℚ) ∨ |v - 1 / (a : ℚ)| < 1 / 10000)) ∧
    (check_answer "1/7" 7 = true ∧ check_answer "0.142857" 7 = true ∧
     check_answer "1/8" 7 = false ∧ check_answer "" 7 = false ∧
     check_answer "abc" 7 = false) := by
  refine ⟨?_, ?_, ?_, rfl, rfl, rfl, rfl, rfl⟩
  · intro h; unfold check_answer; rw [if_pos h]
  · intro h
    by_cases he : stripChars u.toList = []
    · unfold check_answer; rw [if_pos he]
    · unfold check_answer; rw [if_neg he, h]
  · intro v hv hne
    unfold check_answer
    rw [if_neg hne, hv]
    by_cases h : v = 1 / (a : ℚ) <;> simp [h]

/-- Witness for `check_answer_policy`: the decimal approximation
`"0.142857"` parses to `142857/1000000` and is accepted for `a = 7`
through the tolerance branch. -/
theorem check_answer_policy_witness : check_answer "0.142857" 7 = true :=
  ((check_answer_policy "0.142857" 7).2.2.1 (142857 / 1000000) (by decide)
    (by decide)).mpr (Or.inr (by decide))

/-- Counterexample to claim C9 as stated: the source computes the hole
point's y as the Python float `1 / prob['a']`; for `a = 3` that double
is `6004799503160661 / 2^54`, which is not the exact rational `1/3`. -/
theorem hole_point_counterexample :
    (point_data 3).1 = -1 ∧ (point_data 3).2 ≠ 1 / 3 :=
  ⟨rfl, by decide⟩

/-- Claim C9 (amended): for every `a` in `[2, 12]` the hole point is at
`x = -1` with `y` set directly to the float value of `1/a` (the IEEE-754
double nearest `1/a`), which lies within `2^(-53)` of the exact limit
`1/a` and equals it exactly when `a` is a power of two. -/
theorem hole_point_amended (a : ℕ) (h2 : 2 ≤ a) (h12 : a ≤ 12) :
    (point_data a).1 = -1 ∧
    (point_data a).2 = pyFloatInv a ∧
    |(point_data a).2 - 1 / (a : ℚ)| < 1 / 2 ^ 53 ∧
    ((a = 2 ∨ a = 4 ∨ a = 8) → (point_data a).2 = 1 / (a : ℚ)) := by
  interval_cases a <;> exact ⟨rfl, rfl, by decide, by decide⟩

/-- Witness for `hole_point_amended` at `a = 7`. -/
theorem hole_point_amended_witness :
    (2 ≤ 7 ∧ 7 ≤ 12) ∧
    ((point_data 7).1 = -1 ∧
     (point_data 7).2 = pyFloatInv 7 ∧
     |(point_data 7).2 - 1 / ((7 : ℕ) : ℚ)| < 1 / 2 ^ 53 ∧
     (((7 : ℕ) = 2 ∨ (7 : ℕ) = 4 ∨ (7 : ℕ) = 8) → (point_data 7).2 = 1 / ((7 : ℕ) : ℚ))) :=
  ⟨⟨by decide, by decide⟩, hole_point_amended 7 (by decide) (by decide)⟩

/-- Every linspace sample lies in the window `[-2, 0]`. -/
theorem linspace200_bounds (x : ℚ) (hx : x ∈ linspace200) : -2 ≤ x ∧ x ≤ 0 := by
  rw [linspace200] at hx
  obtain ⟨i, hi, rfl⟩ := List.mem_map.mp hx
  have hi' : i < 200 := List.mem_range.mp hi
  have h199 : (i : ℚ) ≤ 199 := by exact_mod_cast Nat.lt_succ_iff.mp hi'
  have h0 : (0 : ℚ) ≤ 2 * (i : ℚ) / 199 := by positivity
  have h2 : 2 * (i : ℚ) / 199 ≤ 2 := by
    rw [div_le_iff₀ (by norm_num : (0 : ℚ) < 199)]; linarith
  exact ⟨by linarith, by linarith⟩

/-- Claim C4: for every `a` in `[2, 12]` (so `c = a² + 2`), every x in
the primary sample list keeps distance at least `0.05` from `-1`, the
radicand's denominator `x + c - 1` is strictly positive, the radicand is
strictly positive, and `y = √(1/(x+c-1))` is a genuine (finite, positive)
real square root. -/
theorem plot_samples_safe (a : ℤ) (h2 : 2 ≤ a) (h12 : a ≤ 12) (x : ℚ)
    (hx : x ∈ plot_xs) :
    1 / 20 ≤ |x - (-1)| ∧
    0 < x + ((generate_problem a).c : ℚ) - 1 ∧
    0 < radicand ((generate_problem a).c : ℚ) x ∧
    Real.sqrt ((radicand ((generate_problem a).c : ℚ) x : ℚ) : ℝ) ^ 2 =
      ((radicand ((generate_problem a).c : ℚ) x : ℚ) : ℝ) ∧
    0 < Real.sqrt ((radicand ((generate_problem a).c : ℚ) x : ℚ) : ℝ) := by
  have hx' : x ∈ linspace200 ∧ (1 : ℚ) / 20 < |x + 1| := by
    simpa [plot_xs, List.mem_filter] using hx
  have hband : 1 / 20 ≤ |x - (-1)| := by
    rw [sub_neg_eq_add]; exact le_of_lt hx'.2
  have hlb : -2 ≤ x := (linspace200_bounds x hx'.1).1
  have hcq : ((generate_problem a).c : ℚ) = (a : ℚ) ^ 2 + 2 := by
    show (((a ^ 2 + 2 : ℤ) : ℚ)) = (a : ℚ) ^ 2 + 2
    push_cast; ring
  have haq : (2 : ℚ) ≤ (a : ℚ) := by exact_mod_cast h2
  have hden : 0 < x + ((generate_problem a).c : ℚ) - 1 := by
    rw [hcq]; nlinarith
  have hrad : 0 < radicand ((generate_problem a).c : ℚ) x := by
    rw [radicand]; exact div_pos one_pos hden
  have hradR : (0 : ℝ) < ((radicand ((generate_problem a).c : ℚ) x : ℚ) : ℝ) :=
    Rat.cast_pos.mpr hrad
  exact ⟨hband, hden, hrad, Real.sq_sqrt hradR.le, Real.sqrt_pos.mpr hradR⟩

/-- Witness for `plot_samples_safe` at `a = 7` and the first sample
`x = -2`. -/
theorem plot_samples_safe_witness :
    1 / 20 ≤ |(-2 : ℚ) - (-1)| ∧
    0 < (-2 : ℚ) + ((generate_problem 7).c : ℚ) - 1 ∧
    0 < radicand ((generate_problem 7).c : ℚ) (-2) ∧
    Real.sqrt ((radicand ((generate_problem 7).c : ℚ) (-2) : ℚ) : ℝ) ^ 2 =
      ((radicand ((generate_problem 7).c : ℚ) (-2) : ℚ) : ℝ) ∧
    0 < Real.sqrt ((radicand ((generate_problem 7).c : ℚ) (-2) : ℚ) : ℝ) := by
  have h1 : (-2 : ℚ) ∈ linspace200 := by
    rw [linspace200]
    exact List.mem_map.mpr ⟨0, List.mem_range.mpr (by norm_num), by norm_num⟩
  have hmem : (-2 : ℚ) ∈ plot_xs := by
    rw [plot_xs]
    exact List.mem_filter.mpr ⟨h1, by decide⟩
  exact plot_samples_safe 7 (by decide) (by decide) (-2) hmem

/-- Claim C1: for every integer `a` in `[2, 12]` the generated problem
has `c = a·a + 2` and `b = c − 1` (and the URL reconstruction builds the
same triple); at `x = −1` the numerator and the denominator of
`(x+1)/(x² + c·x + b)` are both zero; the denominator factors as
`(x+1)(x + c − 1)` with the remaining factor equal to `a²` at `x = −1`;
and the limit of the square root as `x → −1` is exactly `1/a`. -/
theorem generator_limit (a : ℤ) (h2 : 2 ≤ a) (h12 : a ≤ 12) :
    (generate_problem a).c = a * a + 2 ∧
    (generate_problem a).b = (generate_problem a).c - 1 ∧
    problem_from a = generate_problem a ∧
    ((-1 : ℝ) + 1 = 0) ∧
    ((-1 : ℝ) ^ 2 + ((generate_problem a).c : ℝ) * (-1) + ((generate_problem a).b : ℝ) = 0) ∧
    (∀ x : ℝ, x ^ 2 + ((generate_problem a).c : ℝ) * x + ((generate_problem a).b : ℝ)
        = (x + 1) * (x + ((generate_problem a).c : ℝ) - 1)) ∧
    ((-1 : ℝ) + ((generate_problem a).c : ℝ) - 1 = (a : ℝ) ^ 2) ∧
    Filter.Tendsto
      (fun x : ℝ => Real.sqrt ((x + 1) /
        (x ^ 2 + ((generate_problem a).c : ℝ) * x + ((generate_problem a).b : ℝ))))
      (nhdsWithin (-1) {x : ℝ | x ≠ -1}) (nhds (1 / (a : ℝ))) := by
  have hcz : (generate_problem a).c = a ^ 2 + 2 := rfl
  have hbz : (generate_problem a).b = (a ^ 2 + 2) - 1 := rfl
  have hcR : ((generate_problem a).c : ℝ) = (a : ℝ) ^ 2 + 2 := by
    rw [hcz]; push_cast; ring
  have hbR : ((generate_problem a).b : ℝ) = (a : ℝ) ^ 2 + 1 := by
    rw [hbz]; push_cast; ring
  have hA : (2 : ℝ) ≤ (a : ℝ) := by exact_mod_cast h2
  have hA0 : (0 : ℝ) ≤ (a : ℝ) := by linarith
  have hA2pos : (0 : ℝ) < (a : ℝ) ^ 2 := by nlinarith
  refine ⟨by rw [hcz]; ring, rfl, rfl, by norm_num, ?_, ?_, ?_, ?_⟩
  · rw [hcR, hbR]; ring
  · intro x; rw [hcR, hbR]; ring
  · rw [hcR]; ring
  · rw [hcR, hbR]
    have hval : Real.sqrt (1 / (a : ℝ) ^ 2) = 1 / (a : ℝ) := by
      rw [one_div, one_div, Real.sqrt_inv, Real.sqrt_sq hA0]
    have hdne : (-1 : ℝ) + ((a : ℝ) ^ 2 + 1) ≠ 0 := by
      intro h; nlinarith
    have hcont : ContinuousAt (fun x : ℝ => 1 / (x + ((a : ℝ) ^ 2 + 1))) (-1) :=
      ContinuousAt.div continuousAt_const (continuousAt_id.add continuousAt_const) hdne
    have hg : Filter.Tendsto (fun x : ℝ => 1 / (x + ((a : ℝ) ^ 2 + 1)))
        (nhds (-1)) (nhds (1 / (a : ℝ) ^ 2)) := by
      have ht := hcont.tendsto
      rw [show (-1 : ℝ) + ((a : ℝ) ^ 2 + 1) = (a : ℝ) ^ 2 by ring] at ht
      exact ht
    have hg' : Filter.Tendsto (fun x : ℝ => 1 / (x + ((a : ℝ) ^ 2 + 1)))
        (nhdsWithin (-1) {x : ℝ | x ≠ -1}) (nhds (1 / (a : ℝ) ^ 2)) :=
      hg.mono_left nhdsWithin_le_nhds
    have hev : (fun x : ℝ => 1 / (x + ((a : ℝ) ^ 2 + 1)))
        =ᶠ[nhdsWithin (-1) {x : ℝ | x ≠ -1}]
        (fun x : ℝ => (x + 1) / (x ^ 2 + ((a : ℝ) ^ 2 + 2) * x + ((a : ℝ) ^ 2 + 1))) := by
      filter_upwards [eventually_mem_nhdsWithin] with x hx
      have hx1 : x + 1 ≠ 0 := by
        intro h; exact hx (by linarith : x = -1)
      have hfac : x ^ 2 + ((a : ℝ) ^ 2 + 2) * x + ((a : ℝ) ^ 2 + 1)
          = (x + 1) * (x + ((a : ℝ) ^ 2 + 1)) := by ring
      rw [hfac, div_mul_cancel_left₀ hx1, one_div]
    have hratio : Filter.Tendsto
        (fun x : ℝ => (x + 1) / (x ^ 2 + ((a : ℝ) ^ 2 + 2) * x + ((a : ℝ) ^ 2 + 1)))
        (nhdsWithin (-1) {x : ℝ | x ≠ -1}) (nhds (1 / (a : ℝ) ^ 2)) :=
      Filter.Tendsto.congr' hev hg'
    have hsq := hratio.sqrt
    rwa [hval] at hsq

/-- Witness for `generator_limit`: the full limit statement at `a = 7`
(the limit of the square root is exactly `1/7`). -/
theorem generator_limit_witness :
    Filter.Tendsto
      (fun x : ℝ => Real.sqrt ((x + 1) /
        (x ^ 2 + ((generate_problem 7).c : ℝ) * x + ((generate_problem 7).b : ℝ))))
      (nhdsWithin (-1) {x : ℝ | x ≠ -1}) (nhds (1 / ((7 : ℤ) : ℝ))) :=
  (generator_limit 7 (by decide) (by decide)).2.2.2.2.2.2.2
